import Mathlib

/-!
Verification development for the yeelight-bulb Homebridge plugin.

The two source files embedded here are:
* `platform.ts` — `discoverDevices` (UDP multicast discovery, the
  `parseScript` response parser, and the reconcile loop in the socket
  `close` handler);
* `platformAccessory.ts` — `setOn` / `getOn` (the TCP control channel).

Pure functions are translated directly; the event-driven socket code is
embedded as functions from the externally observable events of one
invocation (connection result, first inbound data chunk and its arrival
time, UDP datagram/error events) to a record of the invocation's
observable outcome (value returned or exception, sockets created,
payloads written, number of `destroy` calls).

JavaScript runtime pieces the source calls into (`String.prototype.split`,
`trim`, `toLowerCase`, `JSON.parse`, object index assignment) are embedded
by small executable models of their documented behaviour.
-/

/-- Characters removed by JavaScript `String.prototype.trim`
(WhiteSpace and LineTerminator code points). -/
def jsSpaceChar (c : Char) : Bool :=
  c == ' ' || c == '\t' || c == '\n' || c == '\r' ||
  c == '\x0b' || c == '\x0c' || c == '\u00A0' || c == '\uFEFF' ||
  c == '\u1680' || ('\u2000' ≤ c && c ≤ '\u200A') ||
  c == '\u2028' || c == '\u2029' || c == '\u202F' || c == '\u205F' ||
  c == '\u3000'

/-- JavaScript `trim` on a character list: drop whitespace from both ends. -/
def jsTrim (s : List Char) : List Char :=
  ((s.dropWhile jsSpaceChar).reverse.dropWhile jsSpaceChar).reverse

/-- JavaScript `toLowerCase` restricted to the ASCII range that the
discovery replies use. -/
def jsLower (s : List Char) : List Char :=
  s.map Char.toLower

/-- Does `pre` occur at the head of `s`? -/
def headMatches : List Char → List Char → Bool
  | [], _ => true
  | _ :: _, [] => false
  | p :: ps, x :: xs => p == x && headMatches ps xs

/-- Core loop of JavaScript `String.prototype.split` with a non-empty
separator: `accRev` is the current piece reversed, `fuel` bounds the
recursion by the input length. -/
def jsSplitGo (separator : List Char) : Nat → List Char → List Char → List (List Char)
  | _, accRev, [] => [accRev.reverse]
  | 0, accRev, xs => [accRev.reverse ++ xs]
  | fuel + 1, accRev, x :: xs =>
    if headMatches separator (x :: xs) then
      accRev.reverse :: jsSplitGo separator fuel [] (List.drop separator.length (x :: xs))
    else
      jsSplitGo separator fuel (x :: accRev) xs

/-- JavaScript `s.split(separator)` for a non-empty separator string. -/
def jsSplit (s : String) (separator : String) : List String :=
  (jsSplitGo separator.data (s.data.length + 1) [] s.data).map String.mk

/-- `line.indexOf(':')` followed by the two `slice` calls of `parseScript`:
the text before the first `:` and the text after it, or `none` when the
line has no `:`. -/
def firstColonSplit : List Char → Option (List Char × List Char)
  | [] => none
  | c :: cs =>
    if c == ':' then
      some ([], cs)
    else
      match firstColonSplit cs with
      | some (before, after) => some (c :: before, after)
      | none => none

/-- A parsed discovery reply: the JavaScript object `data` built by
`parseScript`, as an association list with unique keys in insertion
order. -/
def DeviceRec : Type := List (String × String)

instance : DecidableEq DeviceRec := by
  unfold DeviceRec
  infer_instance

/-- Creation or overwrite of an own property: the existing binding is
overwritten in place, else a new one is appended. -/
def recordSetOwn : DeviceRec → String → String → DeviceRec
  | [], key, value => [(key, value)]
  | (k, v) :: rest, key, value =>
    if k == key then (key, value) :: rest
    else (k, v) :: recordSetOwn rest key value

/-- JavaScript object index assignment `data[key] = value` on a plain
object, the value a string: the computed key `__proto__` finds the
inherited accessor on `Object.prototype`, whose setter ignores any value
that is neither an object nor null — the assignment is a silent no-op
and no own entry is created; every other key creates or overwrites an
own property. -/
def recordSet (m : DeviceRec) (key value : String) : DeviceRec :=
  if key == "__proto__" then m else recordSetOwn m key value

/-- JavaScript object index read `data[key]` for the reads the program
performs: `device.id` and `device.model`, keys with no binding on
`Object.prototype`, so the read yields the own property or `undefined`
(`none`). Reads of inherited names such as `toString` are not modelled;
no definition here performs one. -/
def recordGet : DeviceRec → String → Option String
  | [], _ => none
  | (k, v) :: rest, key => if k == key then some v else recordGet rest key

/-- One iteration of the `for (const line of lines)` loop of `parseScript`
(platform.ts): on a line containing `:`, lower-case and trim the text
before the first `:`, trim the text after it, and assign into `data`. -/
def parseScriptLine (data : DeviceRec) (line : String) : DeviceRec :=
  match firstColonSplit line.data with
  | none => data
  | some (before, after) =>
      recordSet data (String.mk (jsLower (jsTrim before))) (String.mk (jsTrim after))

/-- `parseScript` from platform.ts: split the datagram text on `'\n'` and
fold each line into the object `data`. -/
def parseScript (script : String) : DeviceRec :=
  (jsSplit script "\n").foldl parseScriptLine []

/-- C3: the claim says every line containing `:` produces exactly one
mapping entry keyed by the lower-cased trimmed text before the first `:`,
for every input. The line `__proto__: x` contains a `:` yet produces no
entry: `data['__proto__'] = 'x'` invokes the inherited
`Object.prototype` accessor, whose setter silently ignores a string
value, so the real `parseScript` returns an empty mapping there. The
spec's contract (insert every colon line into the mapping) is clearly
the intent and the silent drop a slip of the JavaScript object used as a
map. -/
theorem parseScript_proto_line_dropped :
    parseScript "__proto__: x" = [] ∧
    (firstColonSplit "__proto__: x".data).isSome = true := by
  exact ⟨rfl, rfl⟩

/-- A JavaScript value produced by `JSON.parse`. Numbers keep their raw
token text: the source never does arithmetic on a reply, it only tests
truthiness and compares with `===`. -/
inductive Json where
  | null
  | jbool (b : Bool)
  | jnum (raw : String)
  | jstr (s : String)
  | jarr (elems : List Json)
  | jobj (fields : List (String × Json))

/-- JSON insignificant whitespace. -/
def jsonWs (c : Char) : Bool :=
  [' ', '\t', '\n', '\r'].contains c

def skipWs (cs : List Char) : List Char :=
  cs.dropWhile jsonWs

/-- Value of a hexadecimal digit in a `\u` escape. -/
def hexVal (c : Char) : Option Nat :=
  let n := c.toNat
  if 48 ≤ n && n ≤ 57 then some (n - 48)
  else if 97 ≤ n && n ≤ 102 then some (n - 87)
  else if 65 ≤ n && n ≤ 70 then some (n - 55)
  else none

/-- Single-character JSON string escapes. -/
def escChar : Char → Option Char
  | '"' => some '"'
  | '\\' => some '\\'
  | '/' => some '/'
  | 'b' => some '\x08'
  | 'f' => some '\x0c'
  | 'n' => some '\n'
  | 'r' => some '\r'
  | 't' => some '\t'
  | _ => none

/-- JSON string body (the opening quote already consumed): returns the
decoded string and the rest of the input past the closing quote.
Unescaped control characters and unknown escapes are rejected, as in
`JSON.parse`. -/
def parseJStr : Nat → List Char → List Char → Option (String × List Char)
  | 0, _, _ => none
  | _ + 1, _, [] => none
  | fuel + 1, accRev, c :: rest =>
    if c == '"' then some (String.mk accRev.reverse, rest)
    else if c == '\\' then
      match rest with
      | 'u' :: h1 :: h2 :: h3 :: h4 :: rest2 =>
        match hexVal h1, hexVal h2, hexVal h3, hexVal h4 with
        | some a, some b, some c3, some d =>
            parseJStr fuel (Char.ofNat (((a * 16 + b) * 16 + c3) * 16 + d) :: accRev) rest2
        | _, _, _, _ => none
      | e :: rest2 =>
        match escChar e with
        | some c2 => parseJStr fuel (c2 :: accRev) rest2
        | none => none
      | [] => none
    else if c.toNat < 32 then none
    else parseJStr fuel (c :: accRev) rest

def jsonDigits (cs : List Char) : List Char × List Char :=
  (cs.takeWhile Char.isDigit, cs.dropWhile Char.isDigit)

/-- Fraction part of a JSON number (empty when there is no `.`). -/
def parseJFrac : List Char → Option (List Char × List Char)
  | '.' :: rest =>
    match jsonDigits rest with
    | ([], _) => none
    | (ds, rest2) => some ('.' :: ds, rest2)
  | cs => some ([], cs)

/-- Exponent part of a JSON number (empty when there is no `e`/`E`). -/
def parseJExp : List Char → Option (List Char × List Char)
  | [] => some ([], [])
  | e :: rest =>
    if e == 'e' || e == 'E' then
      let signAndRest : List Char × List Char :=
        match rest with
        | '+' :: r => (['+'], r)
        | '-' :: r => (['-'], r)
        | _ => ([], rest)
      match jsonDigits signAndRest.2 with
      | ([], _) => none
      | (ds, rest2) => some (e :: (signAndRest.1 ++ ds), rest2)
    else some ([], e :: rest)

/-- Integer part of a JSON number after the optional minus sign:
`0` alone, or a nonzero digit followed by digits. -/
def parseJInt : List Char → Option (List Char × List Char)
  | [] => none
  | c :: rest =>
    if c == '0' then some (['0'], rest)
    else if c.isDigit then
      match jsonDigits rest with
      | (ds, rest2) => some (c :: ds, rest2)
    else none

/-- A JSON number token, returned as its raw text. -/
def parseJNum (cs : List Char) : Option (String × List Char) :=
  let signAndRest : List Char × List Char :=
    match cs with
    | '-' :: r => (['-'], r)
    | _ => ([], cs)
  match parseJInt signAndRest.2 with
  | none => none
  | some (ip, cs2) =>
    match parseJFrac cs2 with
    | none => none
    | some (fp, cs3) =>
      match parseJExp cs3 with
      | none => none
      | some (ep, cs4) => some (String.mk (signAndRest.1 ++ ip ++ fp ++ ep), cs4)

mutual

/-- One JSON value, leading whitespace allowed. `fuel` bounds the
recursion; every recursive call consumes input, so the input length
suffices as initial fuel. -/
def parseJVal : Nat → List Char → Option (Json × List Char)
  | 0, _ => none
  | fuel + 1, cs =>
    match skipWs cs with
    | [] => none
    | '{' :: rest =>
      match skipWs rest with
      | '}' :: rest2 => some (.jobj [], rest2)
      | _ =>
        match parseJMembers fuel rest with
        | none => none
        | some (fields, rest2) => some (.jobj fields, rest2)
    | '[' :: rest =>
      match skipWs rest with
      | ']' :: rest2 => some (.jarr [], rest2)
      | _ =>
        match parseJItems fuel rest with
        | none => none
        | some (elems, rest2) => some (.jarr elems, rest2)
    | '"' :: rest =>
      match parseJStr (rest.length + 1) [] rest with
      | none => none
      | some (s, rest2) => some (.jstr s, rest2)
    | 't' :: 'r' :: 'u' :: 'e' :: rest => some (.jbool true, rest)
    | 'f' :: 'a' :: 'l' :: 's' :: 'e' :: rest => some (.jbool false, rest)
    | 'n' :: 'u' :: 'l' :: 'l' :: rest => some (.null, rest)
    | cs2 =>
      match parseJNum cs2 with
      | none => none
      | some (raw, rest) => some (.jnum raw, rest)

/-- The members of a JSON object, the opening `{` already consumed and at
least one member present; stops past the closing `}`. -/
def parseJMembers : Nat → List Char → Option (List (String × Json) × List Char)
  | 0, _ => none
  | fuel + 1, cs =>
    match skipWs cs with
    | '"' :: rest =>
      match parseJStr (rest.length + 1) [] rest with
      | none => none
      | some (key, rest2) =>
        match skipWs rest2 with
        | ':' :: rest3 =>
          match parseJVal fuel rest3 with
          | none => none
          | some (v, rest4) =>
            match skipWs rest4 with
            | ',' :: rest5 =>
              match parseJMembers fuel rest5 with
              | none => none
              | some (fields, rest6) => some ((key, v) :: fields, rest6)
            | '}' :: rest5 => some ([(key, v)], rest5)
            | _ => none
        | _ => none
    | _ => none

/-- The items of a JSON array, the opening `[` already consumed and at
least one item present; stops past the closing `]`. -/
def parseJItems : Nat → List Char → Option (List Json × List Char)
  | 0, _ => none
  | fuel + 1, cs =>
    match parseJVal fuel cs with
    | none => none
    | some (v, rest) =>
      match skipWs rest with
      | ',' :: rest2 =>
        match parseJItems fuel rest2 with
        | none => none
        | some (elems, rest3) => some (v :: elems, rest3)
      | ']' :: rest2 => some ([v], rest2)
      | _ => none

end

/-- `JSON.parse`: one value with optional surrounding whitespace;
trailing non-whitespace input is a syntax error. -/
def jsonParse (s : String) : Option Json :=
  match parseJVal (s.data.length + 1) s.data with
  | none => none
  | some (v, rest) => if (skipWs rest).isEmpty then some v else none

/-- Digits of the mantissa of a raw JSON number token (sign, dot and
exponent stripped): used to decide JavaScript zero-ness. -/
def jsNumMantissa (raw : String) : List Char :=
  ((raw.data.takeWhile (fun c => c != 'e' && c != 'E')).filter Char.isDigit)

/-- JavaScript truthiness of a `JSON.parse` result. -/
def jsTruthy : Json → Bool
  | .null => false
  | .jbool b => b
  | .jnum raw => !(jsNumMantissa raw).all (· == '0')
  | .jstr s => !(s == "")
  | .jarr _ => true
  | .jobj _ => true

/-- JavaScript property read `v[name]` on a `JSON.parse` result, `none`
playing `undefined`. On an object, the last binding wins, as in
`JSON.parse` with duplicate keys; a primitive or array has no such own
property for the names the source reads. Reading off `null` is the
caller's business (it throws) and is handled there. -/
def jsField : Json → String → Option Json
  | .jobj fields, name => (fields.reverse.find? (fun f => f.1 == name)).map (·.2)
  | _, _ => none

/-- JavaScript index read `v[0]`. -/
def jsIndexZero : Json → Option Json
  | .jarr elems => elems.head?
  | .jstr s =>
    match s.data with
    | [] => none
    | c :: _ => some (.jstr (String.mk [c]))
  | .jobj fields => (fields.reverse.find? (fun f => f.1 == "0")).map (·.2)
  | _ => none

/-- JavaScript `x === 'on'` where `x` may be `undefined`. -/
def strictEqOn : Option Json → Bool
  | some (.jstr s) => s == "on"
  | _ => false

/-- Body of the `getOn` data handler (platformAccessory.ts, lines
146-149) after a successful `JSON.parse`: reading `.result` off `null`
throws a TypeError; otherwise `isOn` becomes `response.result[0] === 'on'`
when `response.result` is truthy and keeps its initial `false` otherwise. -/
def getOnDataStep : Json → Except String Bool
  | .null => .error "TypeError"
  | j =>
    match jsField j "result" with
    | none => .ok false
    | some r => .ok (if jsTruthy r then strictEqOn (jsIndexZero r) else false)

/-- The value `getOn` would return for a reply chunk processed by its data
handler: `JSON.parse` then the `response.result` logic; `.error` is an
exception thrown inside the handler. -/
def decodeIsOn (chunk : String) : Except String Bool :=
  match jsonParse chunk with
  | none => .error "SyntaxError"
  | some j => getOnDataStep j

deriving instance DecidableEq for Except

/-- How one invocation of an async characteristic handler ends:
`returned v` — its promise resolves with `v`; `raised msg` — a synchronous
throw in its body rejects the promise; `crashed msg` — an exception in a
socket event handler with no listener escapes the invocation entirely
(default Node behaviour: uncaught, fatal to the process), so the promise
never settles. -/
inductive JsOutcome (α : Type) where
  | returned (v : α)
  | raised (msg : String)
  | crashed (msg : String)
deriving DecidableEq

/-- Result of the TCP connect initiated by `client.connect`: established
at `time` ms after the invocation, or failed with an `'error'` event at
`time`. -/
inductive ConnEvent where
  | ok (time : Nat)
  | fail (time : Nat) (msg : String)
deriving DecidableEq

/-- The first inbound data chunk of a control-channel connection and its
arrival time in ms after the invocation. -/
structure Reply where
  time : Nat
  chunk : String
deriving DecidableEq

/-- The fixed wait of `getOn`: `setTimeout(resolve, 1000)`. -/
def waitMs : Nat := 1000

/-- `accessory.context.device.location.split('//')[1]` followed by the two
`.split(':')` reads of `setOn`/`getOn`: `none` when `location` is absent
or has no `//` (the code then throws a TypeError); otherwise the ip text
and the optional port text (`none` when there is no `:`). -/
def parseLoc : Option String → Option (String × Option String)
  | none => none
  | some loc =>
    match (jsSplit loc "//").get? 1 with
    | none => none
    | some hostAndPort =>
      some (((jsSplit hostAndPort ":").headD ""), (jsSplit hostAndPort ":").get? 1)

/-- Exact value of a JavaScript numeric conversion: a sign with a decimal
mantissa and power-of-ten exponent, or an infinity. `none` at the use
sites plays `NaN`. -/
inductive JsNumVal where
  | finite (neg : Bool) (mant : Nat) (exp10 : Int)
  | inf (neg : Bool)
deriving DecidableEq

def digitsToNat (ds : List Char) : Nat :=
  ds.foldl (fun n c => n * 10 + (c.toNat - 48)) 0

/-- One digit of a base-`b` integer literal (`b` ≤ 16). -/
def baseDigitVal (b : Nat) (c : Char) : Option Nat :=
  match hexVal c with
  | some v => if v < b then some v else none
  | none => none

/-- Value of a base-`b` digit run, `none` on a digit outside the base. -/
def baseDigitsToNat (b : Nat) (ds : List Char) : Option Nat :=
  ds.foldl
    (fun acc c =>
      match acc, baseDigitVal b c with
      | some n, some v => some (n * b + v)
      | _, _ => none)
    (some 0)

/-- The optional `ExponentPart` closing a decimal literal; the whole rest
of the input must be it (or empty). -/
def parseExpTail : List Char → Option Int
  | [] => some 0
  | e :: rest =>
    if e == 'e' || e == 'E' then
      let signAndDigits : Bool × List Char :=
        match rest with
        | '+' :: r => (false, r)
        | '-' :: r => (true, r)
        | _ => (false, rest)
      if signAndDigits.2.isEmpty || !signAndDigits.2.all Char.isDigit then none
      else if signAndDigits.1 then some (-(digitsToNat signAndDigits.2 : Int))
      else some ((digitsToNat signAndDigits.2 : Int))
    else none

/-- `StrUnsignedDecimalLiteral` without the `Infinity` production:
`digits [. digits] [exp]` or `. digits [exp]`, as mantissa and
power-of-ten exponent. -/
def parseUnsignedDec (t : List Char) : Option (Nat × Int) :=
  let ip := t.takeWhile Char.isDigit
  let r1 := t.dropWhile Char.isDigit
  match r1 with
  | '.' :: r2 =>
    let fp := r2.takeWhile Char.isDigit
    let r3 := r2.dropWhile Char.isDigit
    if ip.isEmpty && fp.isEmpty then none
    else
      match parseExpTail r3 with
      | none => none
      | some e => some (digitsToNat (ip ++ fp), e - (fp.length : Int))
  | _ =>
    if ip.isEmpty then none
    else
      match parseExpTail r1 with
      | none => none
      | some e => some (digitsToNat ip, e)

/-- An optionally signed decimal literal or `Infinity`. -/
def decimalOrInf (t : List Char) : Option JsNumVal :=
  let signAndRest : Bool × List Char :=
    match t with
    | '+' :: r => (false, r)
    | '-' :: r => (true, r)
    | _ => (false, t)
  if signAndRest.2 == "Infinity".data then some (.inf signAndRest.1)
  else
    match parseUnsignedDec signAndRest.2 with
    | none => none
    | some me => some (.finite signAndRest.1 me.1 me.2)

/-- JavaScript `Number(s)` for a string, the `StringNumericLiteral`
conversion: surrounding whitespace stripped, the empty remainder is `+0`,
a non-decimal integer literal (`0x`, `0o`, `0b`, signless) keeps its
base, otherwise an optionally signed decimal literal or `Infinity`;
anything else is `NaN` (`none`). Values are kept exact; the float64
rounding of literals beyond double precision is not modelled, and no
theorem below depends on such a literal. -/
def strToNumber (s : String) : Option JsNumVal :=
  match jsTrim s.data with
  | [] => some (.finite false 0 0)
  | t =>
    match t with
    | '0' :: b :: ds =>
      if b == 'x' || b == 'X' then
        if ds.isEmpty then none else (baseDigitsToNat 16 ds).map (.finite false · 0)
      else if b == 'o' || b == 'O' then
        if ds.isEmpty then none else (baseDigitsToNat 8 ds).map (.finite false · 0)
      else if b == 'b' || b == 'B' then
        if ds.isEmpty then none else (baseDigitsToNat 2 ds).map (.finite false · 0)
      else decimalOrInf t
    | _ => decimalOrInf t

/-- Is the converted value negative? `-0` is not (JavaScript `-0 >= 0`
holds). -/
def jsNumIsNeg : JsNumVal → Bool
  | .inf n => n
  | .finite n m _ => n && decide (m ≠ 0)

/-- The value as a natural number when it is a non-negative integer,
`none` otherwise. -/
def jsNumIntValue : JsNumVal → Option Nat
  | .inf _ => none
  | .finite _ m e =>
    if 0 ≤ e then some (m * 10 ^ e.toNat)
    else if 10 ^ (-e).toNat ∣ m then some (m / 10 ^ (-e).toNat) else none

/-- `isLegalPort` of net.js for a string port whose conversion is
non-negative: a non-whitespace-only string denoting an integer at most
65535. -/
def isLegalPortStr (s : String) (v : JsNumVal) : Bool :=
  !(jsTrim s.data).isEmpty &&
  (match jsNumIntValue v with
   | some n => decide (n ≤ 65535)
   | none => false)

/-- How `net.Socket.connect` treats the port argument the code passes. -/
inductive PortTreatment where
  /-- A connection is attempted: a legal TCP port; or an `undefined` port,
  for which `normalizeArgs`/`lookupAndConnect` skip validation and
  `port |= 0` connects to TCP port 0; or a string whose `Number`
  conversion is `NaN` or negative, which `isPipeName` classifies as a
  pipe path and connects to. The attempt's failure arrives later as an
  asynchronous `'error'` event. -/
  | attempt
  /-- `ERR_SOCKET_BAD_PORT` is thrown synchronously inside `connect`,
  before any connection attempt: a defined port string that converts to a
  non-negative number but is whitespace-only/empty, non-integral, or out
  of range. -/
  | badPort
deriving DecidableEq

/-- The port classification of net.js for the strings `setOn`/`getOn`
extract from the device `location`. -/
def classifyPort : Option String → PortTreatment
  | none => .attempt
  | some s =>
    match strToNumber s with
    | none => .attempt
    | some v =>
      if jsNumIsNeg v then .attempt
      else if isLegalPortStr s v then .attempt
      else .badPort

/-- Does the device address let `setOn`/`getOn` reach a connection
attempt? -/
def addrOk (location : Option String) : Bool :=
  match parseLoc location with
  | none => false
  | some ipAndPort =>
    match classifyPort ipAndPort.2 with
    | .attempt => true
    | .badPort => false

/-- The payload written by `getOn`. -/
def getPayload : String :=
  "\x7b\"id\":1,\"method\":\"get_prop\",\"params\":[\"power\"]\x7d\r\n"

/-- The payload written by `setOn` for a boolean value. -/
def setPayload (value : Bool) : String :=
  "\x7b\"id\":1,\"method\":\"set_power\",\"params\":[\"" ++
    (if value then "on" else "off") ++ "\",\"smooth\",500]\x7d\r\n"

/-- Everything observable about one `getOn` invocation. -/
structure GetRun where
  outcome : JsOutcome Bool
  socketsCreated : Nat
  written : List String
  destroys : Nat
deriving DecidableEq

/-- Everything observable about one `setOn` invocation. `uncaught` is an
error event that escapes after the promise has already resolved. -/
structure SetRun where
  outcome : JsOutcome Unit
  uncaught : Option String
  socketsCreated : Nat
  written : List String
  destroys : Nat
deriving DecidableEq

/-- `getOn` from platformAccessory.ts as a function of the invocation's
events. The code splits the location (throwing when it has no `//`),
creates a socket, connects (see `PortTreatment` for the port), writes the
`get_prop` payload on connect, lets the data handler decode the first
chunk into `isOn`, sleeps a fixed 1000 ms, destroys the socket and
returns `isOn`. There is no `'error'` listener, so a connect failure
before the 1000 ms destroy is an uncaught exception; so is a decode
failure inside the data handler (and then the destroy is never reached).
A chunk arriving at or after 1000 ms finds the socket destroyed and is
discarded. -/
def getOn (location : Option String) (conn : ConnEvent) (reply : Option Reply) : GetRun :=
  match parseLoc location with
  | none => ⟨.raised "TypeError", 0, [], 0⟩
  | some ipAndPort =>
    match classifyPort ipAndPort.2 with
    | .badPort => ⟨.raised "ERR_SOCKET_BAD_PORT", 1, [], 0⟩
    | .attempt =>
      match conn with
      | .fail t msg =>
        if t < waitMs then ⟨.crashed msg, 1, [], 0⟩
        else ⟨.returned false, 1, [], 1⟩
      | .ok t =>
        if waitMs ≤ t then ⟨.returned false, 1, [], 1⟩
        else
          match reply with
          | none => ⟨.returned false, 1, [getPayload], 1⟩
          | some r =>
            if r.time < waitMs then
              match decodeIsOn r.chunk with
              | .error msg => ⟨.crashed msg, 1, [getPayload], 0⟩
              | .ok b => ⟨.returned b, 1, [getPayload], 1⟩
            else ⟨.returned false, 1, [getPayload], 1⟩

/-- `setOn` from platformAccessory.ts as a function of the invocation's
events. The body has no `await`: after splitting the location (throwing
when it has no `//`), creating the socket and initiating the connect
(see `PortTreatment` for the port), the promise resolves with `undefined`.
The handlers later write the payload on connect and destroy the socket
on the first data chunk; a connect failure has no `'error'` listener and
escapes after the promise has already resolved. -/
def setOn (location : Option String) (value : Bool) (conn : ConnEvent)
    (replyArrives : Bool) : SetRun :=
  match parseLoc location with
  | none => ⟨.raised "TypeError", none, 0, [], 0⟩
  | some ipAndPort =>
    match classifyPort ipAndPort.2 with
    | .badPort => ⟨.raised "ERR_SOCKET_BAD_PORT", none, 1, [], 0⟩
    | .attempt =>
      match conn with
      | .fail _ msg => ⟨.returned (), some msg, 1, [], 0⟩
      | .ok _ =>
        if replyArrives then ⟨.returned (), none, 1, [setPayload value], 1⟩
        else ⟨.returned (), none, 1, [setPayload value], 0⟩

/-- A platform accessory held in `this.accessories`: its `UUID` and an
opaque handle distinguishing the underlying object. -/
structure Accessory where
  uuid : String
  handle : Nat
deriving DecidableEq

/-- One iteration of the reconcile loop in the `close` handler of
`discoverDevices`: restoring creates the handler on the existing
accessory object; creating registers a fresh accessory carrying the
record and the derived uuid. -/
inductive DiscAction where
  | restore (existing : Accessory)
  | create (uuid : String) (device : DeviceRec)
deriving DecidableEq

/-- One iteration of the `for (const device of devices)` loop in the
`close` handler (platform.ts, lines 109-155). `gen` is the host runtime's
`this.api.hap.uuid.generate`, applied to `device.id` exactly as the code
does — also when that read yields `undefined`, there being no check. The
loop reads `this.accessories`, which the loop itself never extends. -/
def discoverStep (gen : Option String → String) (known : List Accessory)
    (device : DeviceRec) : DiscAction :=
  let uuid := gen (recordGet device "id")
  match known.find? (fun accessory => accessory.uuid == uuid) with
  | some existing => .restore existing
  | none => .create uuid device

/-- The whole reconcile loop of the `close` handler over the collected
`devices` list. -/
def discoverClose (gen : Option String → String) (known : List Accessory)
    (devices : List DeviceRec) : List DiscAction :=
  devices.map (discoverStep gen known)

/-- One asynchronous event of a discovery cycle: an inbound datagram, or
a socket `'error'` event. -/
inductive DiscEvent where
  | message (chunk : String)
  | sockError (msg : String)

/-- The datagram texts accumulated in `devices` when the socket closes:
the `'error'` handler calls `socket.close()`, so collection stops at the
first socket error; otherwise the 1-second timer closes the socket after
the last event. -/
def collectReplies : List DiscEvent → List String
  | [] => []
  | .message chunk :: rest => chunk :: collectReplies rest
  | .sockError _ :: _ => []

/-- `discoverDevices` from platform.ts as a function of the cycle's
events: every collected datagram is parsed by `parseScript` into
`devices`, and the `close` handler reconciles the accumulated list
against `this.accessories`. -/
def discoverDevices (gen : Option String → String) (known : List Accessory)
    (events : List DiscEvent) : List DiscAction :=
  discoverClose gen known ((collectReplies events).map parseScript)

/-- A concrete stand-in for the host runtime's deterministic
`uuid.generate`, used to evaluate the discovery model on concrete
inputs. -/
def genW : Option String → String
  | some s => "uuid-" ++ s
  | none => "uuid-undefined"

/-- A concrete parsed record with a usable id, for evaluating the
discovery model. -/
def dev1 : DeviceRec := [("id", "0x1"), ("model", "color")]

/-- A concrete cached accessory whose `UUID` matches `genW` on `dev1`. -/
def accW : Accessory := ⟨"uuid-0x1", 7⟩

/-- C2: the claim says reconciliation skips every record lacking a usable
id, so the number of emitted actions equals the number of records with a
usable id. The loop in the `close` handler has no such check: it reads
`device.id` (here `undefined`) and hands it straight to `uuid.generate`,
emitting an action for the record all the same — at this input the real
runtime aborts inside `uuid.generate(undefined)` instead of skipping.
With the generate call modelled as total, one record with no `id` field
yields one emitted action although zero records have a usable id. -/
theorem discover_registers_record_without_id :
    (discoverClose genW [] [([] : DeviceRec)]).length = 1 ∧
    (([([] : DeviceRec)] : List DeviceRec).filter
        (fun d => (recordGet d "id").isSome)).length = 0 := by
  exact ⟨rfl, rfl⟩

/-- C4: a record whose derived key equals the `UUID` of a cached accessory
yields `Restore` carrying that very accessory object (the handle is
reused, never re-created); a record whose key matches no cached accessory
yields `Create` with the key derived from its id. Stated positionally
over the reconcile loop's output. -/
theorem discover_restore_or_create (gen : Option String → String)
    (known : List Accessory) (devices : List DeviceRec) (i : Nat)
    (hi : i < devices.length) :
    (∀ a, known.find?
          (fun acc => acc.uuid == gen (recordGet (devices.get ⟨i, hi⟩) "id")) = some a →
        (discoverClose gen known devices).get? i = some (.restore a)) ∧
    (known.find?
          (fun acc => acc.uuid == gen (recordGet (devices.get ⟨i, hi⟩) "id")) = none →
        (discoverClose gen known devices).get? i =
          some (.create (gen (recordGet (devices.get ⟨i, hi⟩) "id"))
            (devices.get ⟨i, hi⟩))) := by
  have hmap : (discoverClose gen known devices).get? i =
      some (discoverStep gen known (devices.get ⟨i, hi⟩)) := by
    unfold discoverClose
    rw [List.get?_map, List.get?_eq_get hi]
    rfl
  constructor
  · intro a ha
    rw [hmap]
    simp only [discoverStep]
    rw [ha]
  · intro ha
    rw [hmap]
    simp only [discoverStep]
    rw [ha]

theorem discover_restore_or_create_witness :
    (discoverClose genW [accW] [dev1]).get? 0 = some (.restore accW) ∧
    (discoverClose genW [] [dev1]).get? 0 = some (.create "uuid-0x1" dev1) := by
  constructor
  · exact (discover_restore_or_create genW [accW] [dev1] 0 (by decide)).1 accW (by rfl)
  · exact (discover_restore_or_create genW [] [dev1] 0 (by decide)).2 (by rfl)

theorem collectReplies_until_error (chunks : List String) (msg : String)
    (post : List DiscEvent) :
    collectReplies (chunks.map DiscEvent.message ++ DiscEvent.sockError msg :: post) =
      chunks := by
  induction chunks with
  | nil => rfl
  | cons c cs ih => simp [collectReplies, ih]

/-- C8: when a socket `'error'` event interrupts a discovery cycle after
some replies were collected, the `'error'` handler closes the socket and
the `close` handler still reconciles exactly the records collected before
the error — they are preserved and each yields an action, not
discarded. -/
theorem discovery_partial_results_preserved (gen : Option String → String)
    (known : List Accessory) (chunks : List String) (msg : String)
    (post : List DiscEvent) :
    discoverDevices gen known
        (chunks.map DiscEvent.message ++ DiscEvent.sockError msg :: post) =
      discoverClose gen known (chunks.map parseScript) ∧
    (discoverDevices gen known
        (chunks.map DiscEvent.message ++ DiscEvent.sockError msg :: post)).length =
      chunks.length := by
  have hc : collectReplies
      (chunks.map DiscEvent.message ++ DiscEvent.sockError msg :: post) = chunks :=
    collectReplies_until_error chunks msg post
  constructor
  · unfold discoverDevices
    rw [hc]
  · unfold discoverDevices discoverClose
    rw [hc]
    simp

/-- C9: the claim says a duplicate record for the same id is deduplicated
by identity, at most one `Create` being emitted. The loop compares each
record only against `this.accessories`, which registering does not
extend during the cycle, so two records with the same previously unknown
id yield two `Create` actions with the same uuid — and the second
`registerPlatformAccessories` call then violates the code's own comment
that accessories "must only be registered once ... to prevent duplicate
UUID errors". -/
theorem discover_duplicate_id_double_create :
    discoverClose genW [] [dev1, dev1] =
      [.create "uuid-0x1" dev1, .create "uuid-0x1" dev1] := by
  rfl

/-- The discovery `location` of a concrete device, in the shape the
source comments document. -/
def locW : Option String := some "yeelight://192.168.50.219:55443"

/-- A concrete well-formed `get_prop` reply whose decoded power state is
on. -/
def onChunk : String := "\x7b\"id\":1,\"result\":[\"on\"]\x7d"

/-- C1 counterexample: the claim says a reply arriving at 4.9 s against a
5 s deadline yields `Succeeded` with the decoded reply. `getOn` has no
5-second deadline at all: it sleeps a fixed 1000 ms and destroys the
socket, so a well-formed "on" reply arriving at 4900 ms is discarded and
the call returns plain `false` — indistinguishable from a bulb that is
off, with no `Succeeded`/`TimedOut` distinction anywhere. -/
theorem getOn_late_reply_not_succeeded :
    (getOn locW (.ok 0) (some ⟨4900, onChunk⟩)).outcome = .returned false ∧
    decodeIsOn onChunk = .ok true := by
  exact ⟨by decide, by decide⟩

/-- C1 amended: `getOn` waits a fixed 1 second (not 5) from invocation
and returns a bare boolean: a reply arriving before 1000 ms determines
the returned value via the `result[0] === 'on'` decode, a reply at or
after 1000 ms is discarded and the call returns `false` (as it does when
no reply arrives), and no timeout error is ever surfaced. -/
theorem getOn_fixed_one_second_window (loc : Option String) (r : Reply) (b : Bool)
    (haddr : addrOk loc = true) (hdec : decodeIsOn r.chunk = .ok b) :
    ((getOn loc (.ok 0) none).outcome = .returned false) ∧
    (r.time < waitMs → (getOn loc (.ok 0) (some r)).outcome = .returned b) ∧
    (waitMs ≤ r.time → (getOn loc (.ok 0) (some r)).outcome = .returned false) := by
  unfold addrOk at haddr
  cases hp : parseLoc loc with
  | none => rw [hp] at haddr; simp at haddr
  | some ipAndPort =>
    rw [hp] at haddr
    simp only [] at haddr
    cases hcp : classifyPort ipAndPort.2 with
    | badPort => rw [hcp] at haddr; simp at haddr
    | attempt =>
      refine ⟨?_, fun ht => ?_, fun ht => ?_⟩
      · simp [getOn, hp, hcp, waitMs]
      · have ht2 : r.time < 1000 := by simpa [waitMs] using ht
        simp [getOn, hp, hcp, waitMs, ht2, hdec]
      · have ht2 : ¬ r.time < 1000 := by
          simp only [waitMs] at ht
          omega
        simp [getOn, hp, hcp, waitMs, ht2]

theorem getOn_fixed_one_second_window_witness :
    (getOn locW (.ok 0) (some ⟨100, onChunk⟩)).outcome = .returned true :=
  (getOn_fixed_one_second_window locW ⟨100, onChunk⟩ true (by decide) (by decide)).2.1
    (by decide)

/-- C5 counterexample: the claim says an unparsable reply body yields the
typed failure `DecodeError` and the socket is still closed exactly once.
In `getOn` the `JSON.parse` failure is an exception thrown inside the
`'data'` handler with nothing to catch it: the invocation never settles
with any value (crashed, not a typed result), and the fixed 1000 ms
`client.destroy()` is never reached, so the socket is destroyed zero
times, not once. -/
theorem getOn_unparsable_reply_crashes :
    getOn locW (.ok 0) (some ⟨100, "nonsense"⟩) =
      ⟨.crashed "SyntaxError", 1, [getPayload], 0⟩ := by
  decide

/-- C5 amended: a reply chunk that is not parseable JSON, arriving while
the socket is still open, makes `JSON.parse` throw inside the data
handler; the failure escapes as an uncaught exception instead of being
returned as a typed `DecodeError`, and the handler's crash prevents the
destroy, so the socket is not closed by `getOn` at all. -/
theorem getOn_unparsable_reply_uncaught (loc : Option String) (r : Reply)
    (haddr : addrOk loc = true) (hbad : jsonParse r.chunk = none)
    (ht : r.time < waitMs) :
    getOn loc (.ok 0) (some r) = ⟨.crashed "SyntaxError", 1, [getPayload], 0⟩ := by
  have hdec : decodeIsOn r.chunk = .error "SyntaxError" := by
    unfold decodeIsOn
    rw [hbad]
  unfold addrOk at haddr
  cases hp : parseLoc loc with
  | none => rw [hp] at haddr; simp at haddr
  | some ipAndPort =>
    rw [hp] at haddr
    simp only [] at haddr
    cases hcp : classifyPort ipAndPort.2 with
    | badPort => rw [hcp] at haddr; simp at haddr
    | attempt =>
      have ht2 : r.time < 1000 := by simpa [waitMs] using ht
      simp [getOn, hp, hcp, waitMs, ht2, hdec]

theorem getOn_unparsable_reply_uncaught_witness :
    getOn locW (.ok 0) (some ⟨50, "oops"⟩) =
      ⟨.crashed "SyntaxError", 1, [getPayload], 0⟩ :=
  getOn_unparsable_reply_uncaught locW ⟨50, "oops"⟩ (by decide) (by rfl) (by decide)

/-- C6 counterexample: the claim says an address that does not parse as
`scheme://host:port` makes the call return `PreconditionError`
immediately. For a location with no `//` both handlers throw a TypeError
(`undefined.split`) instead of returning any typed value — the zero
socket operations half is what actually holds. -/
theorem bad_address_not_precondition_error :
    getOn (some "192.168.50.219:55443") (.ok 0) none =
      ⟨.raised "TypeError", 0, [], 0⟩ ∧
    setOn (some "192.168.50.219:55443") true (.ok 0) false =
      ⟨.raised "TypeError", none, 0, [], 0⟩ := by
  exact ⟨by decide, by decide⟩

/-- C6 amended: an absent location or one without `//` makes `setOn` and
`getOn` throw a TypeError before any socket exists — the async call
rejects, with zero socket operations and no typed `PreconditionError`
anywhere. An address with `//` is not precondition-checked at all: a
missing port proceeds to a TCP connection attempt to port 0 and a
non-numeric one to a pipe-path attempt, whose failure arrives as an
asynchronous uncaught `'error'` event; only a defined port string that
converts to a non-negative number yet is empty, non-integral or out of
range throws `ERR_SOCKET_BAD_PORT` synchronously inside `connect`, after
the socket object exists but before any connection attempt. -/
theorem bad_address_no_precondition_check (loc : Option String) (v : Bool)
    (conn conn2 : ConnEvent) (reply : Option Reply) (rep2 : Bool)
    (t : Nat) (msg : String) :
    (parseLoc loc = none →
      getOn loc conn reply = ⟨.raised "TypeError", 0, [], 0⟩ ∧
      setOn loc v conn2 rep2 = ⟨.raised "TypeError", none, 0, [], 0⟩) ∧
    (∀ ip, parseLoc loc = some (ip, none) → t < waitMs →
      getOn loc (.fail t msg) none = ⟨.crashed msg, 1, [], 0⟩ ∧
      (setOn loc v (.fail t msg) false).uncaught = some msg) ∧
    (classifyPort (some "abc") = .attempt ∧
      classifyPort (some "") = .badPort ∧
      getOn (some "yeelight://192.168.50.219:") conn reply =
        ⟨.raised "ERR_SOCKET_BAD_PORT", 1, [], 0⟩) := by
  refine ⟨?_, ?_, ?_, ?_, ?_⟩
  · intro hp
    exact ⟨by simp [getOn, hp], by simp [setOn, hp]⟩
  · intro ip hp ht
    have ht2 : t < 1000 := by simpa [waitMs] using ht
    have hcp : classifyPort (none : Option String) = .attempt := rfl
    exact ⟨by simp [getOn, hp, hcp, waitMs, ht2], by simp [setOn, hp, hcp]⟩
  · rfl
  · rfl
  · have hp : parseLoc (some "yeelight://192.168.50.219:") =
        some ("192.168.50.219", some "") := by rfl
    have hcp : classifyPort (some "") = .badPort := by rfl
    simp [getOn, hp, hcp]

theorem bad_address_no_precondition_check_witness :
    getOn (some "bulb.local") (.ok 0) none = ⟨.raised "TypeError", 0, [], 0⟩ ∧
    getOn (some "yeelight://192.168.50.219") (.fail 5 "ECONNREFUSED") none =
      ⟨.crashed "ECONNREFUSED", 1, [], 0⟩ := by
  constructor
  · exact ((bad_address_no_precondition_check (some "bulb.local") true (.ok 0) (.ok 0)
      none false 5 "x").1 (by decide)).1
  · exact ((bad_address_no_precondition_check (some "yeelight://192.168.50.219") true
      (.fail 5 "ECONNREFUSED") (.ok 0) none false 5 "ECONNREFUSED").2.1
      "192.168.50.219" (by decide) (by decide)).1

/-- C7 counterexample: the claim says every failure in a command
invocation is returned to the immediate caller as a typed result and
never escapes as an unhandled abort. `getOn` installs no `'error'`
listener on its socket, so a TCP connection-establishment failure is an
unhandled `'error'` event: the invocation never settles with any typed
result — it crashes. -/
theorem getOn_connect_failure_crashes :
    (getOn locW (.fail 20 "ECONNREFUSED") none).outcome = .crashed "ECONNREFUSED" := by
  decide

/-- C7 amended: discovery socket errors are caught by the `'error'`
handler (the socket is closed and the cycle still completes normally),
but the control channel has no `'error'` listener: a connect failure in
`getOn` escapes as an uncaught exception and the call never settles, and
in `setOn` it escapes after the promise has already resolved. No typed
`ConnectError` exists anywhere. -/
theorem connect_failure_unhandled (loc : Option String) (t : Nat) (msg : String)
    (v : Bool) (haddr : addrOk loc = true) (ht : t < waitMs) :
    (getOn loc (.fail t msg) none).outcome = .crashed msg ∧
    (setOn loc v (.fail t msg) false).uncaught = some msg ∧
    (∀ gen known msg2, discoverDevices gen known [DiscEvent.sockError msg2] = []) := by
  unfold addrOk at haddr
  cases hp : parseLoc loc with
  | none => rw [hp] at haddr; simp at haddr
  | some ipAndPort =>
    rw [hp] at haddr
    simp only [] at haddr
    cases hcp : classifyPort ipAndPort.2 with
    | badPort => rw [hcp] at haddr; simp at haddr
    | attempt =>
      have ht2 : t < 1000 := by simpa [waitMs] using ht
      refine ⟨?_, ?_, ?_⟩
      · simp [getOn, hp, hcp, waitMs, ht2]
      · simp [setOn, hp, hcp]
      · intro gen known msg2
        rfl

theorem connect_failure_unhandled_witness :
    (getOn locW (.fail 20 "EHOSTUNREACH") none).outcome = .crashed "EHOSTUNREACH" :=
  (connect_failure_unhandled locW 20 "EHOSTUNREACH" true (by decide) (by decide)).1

/-- C10: once the address splits cleanly, `setOn`'s promise resolves with
`undefined` no matter what later happens on the socket: the body has no
`await`, nothing inspects the device's reply, and no typed result about
the connection, the write or the command ever reaches the caller — the
outcome is one fixed value across all connection events. -/
theorem setOn_outcome_independent_of_events (loc : Option String) (v : Bool)
    (conn : ConnEvent) (replyArrives : Bool) (haddr : addrOk loc = true) :
    (setOn loc v conn replyArrives).outcome = .returned () ∧
    (∀ conn2 rep2, (setOn loc v conn replyArrives).outcome =
      (setOn loc v conn2 rep2).outcome) := by
  unfold addrOk at haddr
  cases hp : parseLoc loc with
  | none => rw [hp] at haddr; simp at haddr
  | some ipAndPort =>
    rw [hp] at haddr
    simp only [] at haddr
    cases hcp : classifyPort ipAndPort.2 with
    | badPort => rw [hcp] at haddr; simp at haddr
    | attempt =>
      have hall : ∀ (c : ConnEvent) (r2 : Bool),
          (setOn loc v c r2).outcome = .returned () := by
        intro c r2
        cases c with
        | ok t => cases r2 <;> simp [setOn, hp, hcp]
        | fail t msg => simp [setOn, hp, hcp]
      exact ⟨hall conn replyArrives, fun c r2 => by rw [hall, hall]⟩

theorem setOn_outcome_independent_of_events_witness :
    (setOn locW true (.fail 5 "ECONNREFUSED") false).outcome = .returned () :=
  (setOn_outcome_independent_of_events locW true (.fail 5 "ECONNREFUSED") false
    (by decide)).1
